import Mathlib

/-!
Shallow embedding of the stats and analytics plane of the registry
(extensions/stats and extensions/vp in the Go source).

Modelling conventions:
* Document-store documents are Lean structures; a collection is a `List` of
  documents.  `FindOne` is `List.find?`, `UpdateOne` rewrites the first
  matching document, an upsert appends a fresh document when no match exists.
* Go `int` is `Int`, Go `float64` is `ℚ` (the claims only involve exact
  rational values), `time.Time` is an abstract `Nat` tick passed in as `now`
  (0 plays the role of the Go zero time).
* A bson field marked `omitempty` is absent from a marshalled struct when the
  Go value is the zero value; `setStructFields` below reproduces the effect of
  a `$set` with a marshalled `ServerStats`: non-omitempty fields are always
  overwritten, omitempty fields are overwritten only when non-zero, and
  fields that are not part of the struct (such as `claimed_to`, which is only
  ever written through a raw update document) are left untouched.
* The `server_id` field of a stats document is a BSON scalar, not necessarily
  a string: `SyncAnalyticsData` filters it with a Go `int`.  `BVal` captures
  the two scalar shapes that actually occur.
-/

/-- BSON scalar values that occur in the `server_id` field of stats
documents: every normal write uses a string, while `SyncAnalyticsData`
filters and upserts with a Go `int`. -/
inductive BVal where
  | str : String → BVal
  | int : Int → BVal
deriving DecidableEq

/-- Source constant `SourceRegistry` from extensions/stats/model.go. -/
def SourceRegistry : String := "REGISTRY"

/-- Source constant `SourceCommunity` from extensions/stats/model.go. -/
def SourceCommunity : String := "COMMUNITY"

/-- A document of the `server_stats` collection, following the `ServerStats`
struct of extensions/stats/model.go plus the `claimed_to` field that
`TransferStats` writes through a raw update document (it is not a struct
field).  Absent optional fields are represented by the Go zero value
(`0`, the empty string, `none`). -/
structure ServerStats where
  serverId : BVal
  source : String
  installationCount : Int
  rating : ℚ
  ratingCount : Int
  firstSeen : Nat
  lastUpdated : Nat
  activeInstalls : Int
  dailyActiveUsers : Int
  monthlyActiveUsers : Int
  claimedFrom : String
  claimedAt : Nat
  claimedTo : Option String
deriving DecidableEq

/-- The Go zero value of `ServerStats` (also the shape of a document before
any field is set). -/
def emptyStats : ServerStats :=
  { serverId := BVal.str ""
    source := ""
    installationCount := 0
    rating := 0
    ratingCount := 0
    firstSeen := 0
    lastUpdated := 0
    activeInstalls := 0
    dailyActiveUsers := 0
    monthlyActiveUsers := 0
    claimedFrom := ""
    claimedAt := 0
    claimedTo := none }

/-- The filter `{server_id: sid, source: src}` used throughout
extensions/stats/database.go. -/
def statsFilter (sid : BVal) (src : String) (d : ServerStats) : Bool :=
  decide (d.serverId = sid) && decide (d.source = src)

/-- `FindOne` on the stats collection with the `{server_id, source}` filter
(the compound index is unique, so the first match is the match). -/
def findOneStats (store : List ServerStats) (sid : BVal) (src : String) :
    Option ServerStats :=
  store.find? (statsFilter sid src)

/-- Mongo `UpdateOne`: rewrite the first document matching `p` with `f`. -/
def updateOne {α : Type} (p : α → Bool) (f : α → α) : List α → List α
  | [] => []
  | d :: ds => if p d then f d :: ds else d :: updateOne p f ds

/-- Mongo `UpdateOne` with upsert: rewrite the first match, or append the
insert document when nothing matches. -/
def updateOneUpsert {α : Type} (p : α → Bool) (f : α → α) (ins : α)
    (store : List α) : List α :=
  match store.find? p with
  | some _ => updateOne p f store
  | none => store ++ [ins]

/-- Effect of `$set` with a marshalled `ServerStats` struct on an existing
document `old`: fields without `omitempty` are always written; the
`omitempty` fields (`active_installs`, `daily_active_users`,
`monthly_active_users`, `claimed_from`, `claimed_at`) are written only when
the struct value is non-zero; `claimed_to` is not a struct field and is
never written by such a `$set`. -/
def setStructFields (old new : ServerStats) : ServerStats :=
  { serverId := new.serverId
    source := new.source
    installationCount := new.installationCount
    rating := new.rating
    ratingCount := new.ratingCount
    firstSeen := new.firstSeen
    lastUpdated := new.lastUpdated
    activeInstalls := if new.activeInstalls = 0 then old.activeInstalls else new.activeInstalls
    dailyActiveUsers := if new.dailyActiveUsers = 0 then old.dailyActiveUsers else new.dailyActiveUsers
    monthlyActiveUsers := if new.monthlyActiveUsers = 0 then old.monthlyActiveUsers else new.monthlyActiveUsers
    claimedFrom := if new.claimedFrom = "" then old.claimedFrom else new.claimedFrom
    claimedAt := if new.claimedAt = 0 then old.claimedAt else new.claimedAt
    claimedTo := old.claimedTo }

/-- `UpsertStats` (extensions/stats/database.go): default the source to
REGISTRY, stamp `last_updated`, then upsert `$set stats` under the
`{server_id, source}` filter. -/
def upsertStats (now : Nat) (stats : ServerStats) (store : List ServerStats) :
    List ServerStats :=
  let stats1 := if stats.source = "" then { stats with source := SourceRegistry } else stats
  let stats2 := { stats1 with lastUpdated := now }
  updateOneUpsert (statsFilter stats2.serverId stats2.source)
    (fun old => setStructFields old stats2)
    (setStructFields emptyStats stats2)
    store

/-! Validation helpers, from internal/validation/db_validation.go.
The string primitives (trim, lower-casing, splitting) are written over the
character list so that they evaluate inside the kernel. -/

/-- Go strings.TrimSpace: drop whitespace from both ends. -/
def goTrimSpace (s : String) : String :=
  String.mk (((s.toList.dropWhile Char.isWhitespace).reverse.dropWhile
    Char.isWhitespace).reverse)

/-- Go strings.ToLower (on the characters the ID regexes accept). -/
def goToLower (s : String) : String :=
  String.mk (s.toList.map Char.toLower)

/-- Split a character list on a separator character, keeping empty
segments. -/
def splitChar (sep : Char) : List Char → List (List Char)
  | [] => [[]]
  | c :: cs =>
    match splitChar sep cs with
    | [] => [[]]
    | g :: gs => if c = sep then [] :: g :: gs else (c :: g) :: gs

/-- Hex digit test, matching the character class of the UUID regex. -/
def isHexDigitGo (c : Char) : Bool :=
  c.isDigit || (decide ('a' ≤ c) && decide (c ≤ 'f')) || (decide ('A' ≤ c) && decide (c ≤ 'F'))

/-- The anchored UUID regex of `SanitizeID`: five hyphen-separated hex runs
of lengths 8-4-4-4-12. -/
def isUUIDFormat (s : String) : Bool :=
  match splitChar '-' s.toList with
  | [a, b, c, d, e] =>
    decide (a.length = 8) && decide (b.length = 4) && decide (c.length = 4) &&
    decide (d.length = 4) && decide (e.length = 12) &&
    (a ++ b ++ c ++ d ++ e).all isHexDigitGo
  | _ => false

/-- A character admissible after the first position of the alternative ID
regex of `SanitizeID`. -/
def isIDChar (c : Char) : Bool :=
  c.isAlphanum || c == '.' || c == '_' || c == '-'

/-- The anchored alternative ID regex of `SanitizeID`: an alphanumeric
first character followed by up to 254 characters from the ID class. -/
def isLabelFormat (s : String) : Bool :=
  match s.toList with
  | [] => false
  | c :: cs => c.isAlphanum && decide (cs.length ≤ 254) && cs.all isIDChar

/-- `SanitizeID`: trim, reject empty, lowercase UUIDs, accept label-shaped
IDs, reject the rest. -/
def sanitizeID (id : String) : Except String String :=
  let id := goTrimSpace id
  if id = "" then .error "ID cannot be empty"
  else if isUUIDFormat id then .ok (goToLower id)
  else if isLabelFormat id then .ok id
  else .error "ID contains invalid characters or format"

/-- `SanitizeServerID` delegates to `SanitizeID`. -/
def sanitizeServerID (serverID : String) : Except String String :=
  sanitizeID serverID

/-- The whitelist `AllowedSourceValues`. -/
def allowedSourceValues (s : String) : Bool :=
  s == "REGISTRY" || s == "COMMUNITY" || s == "ALL" || s == ""

/-- The helper called isAlphanumeric in the source, whose regex actually
tests for one or more uppercase letters (empty strings pass). -/
def isUpperOnly (s : String) : Bool :=
  if s = "" then true
  else s.toList.all (fun c => decide ('A' ≤ c) && decide (c ≤ 'Z'))

/-- `ValidateSource`: trim, whitelist, then the uppercase-only safety
check. -/
def validateSource (source : String) : Except String String :=
  let source := goTrimSpace source
  if !allowedSourceValues source then .error "invalid source value"
  else if !isUpperOnly source && decide (source ≠ "") then .error "source contains invalid characters"
  else .ok source

/-- `ValidateLimit`: limits must lie in 1..1000. -/
def validateLimit (limit : Int) : Except String Int :=
  if limit < 1 then .error "limit must be at least 1"
  else if limit > 1000 then .error "limit cannot exceed 1000"
  else .ok limit

/-- `CreateSafeFilter`: empty or ALL means no source restriction, any other
validated source filters on it. -/
def createSafeFilter (source : String) : Except String (ServerStats → Bool) := do
  let validatedSource ← validateSource source
  if validatedSource ≠ "" ∧ validatedSource ≠ "ALL" then
    .ok (fun d => decide (d.source = validatedSource))
  else
    .ok (fun _ => true)

/-- `UpdateRating` (extensions/stats/database.go): validate inputs, read the
current document (the Go zero struct when absent), recompute the running
mean, then `$set {rating, rating_count, last_updated, source}` with
`$setOnInsert {first_seen}` as an upsert. -/
def updateRating (now : Nat) (serverID source : String) (newRating : ℚ)
    (store : List ServerStats) : Except String (List ServerStats) :=
  match sanitizeServerID serverID with
  | .error _ => .error "invalid server ID"
  | .ok sanitizedServerID =>
    let source := if source = "" then SourceRegistry else source
    match validateSource source with
    | .error _ => .error "invalid source parameter"
    | .ok validatedSource =>
      let current := (findOneStats store (BVal.str sanitizedServerID) validatedSource).getD emptyStats
      let totalRating := current.rating * (current.ratingCount : ℚ)
      let newRatingCount := current.ratingCount + 1
      let newAvgRating := (totalRating + newRating) / (newRatingCount : ℚ)
      .ok (updateOneUpsert (statsFilter (BVal.str sanitizedServerID) validatedSource)
        (fun d => { d with rating := newAvgRating, ratingCount := newRatingCount,
                           lastUpdated := now, source := source })
        { emptyStats with serverId := BVal.str sanitizedServerID, source := source,
                          rating := newAvgRating, ratingCount := newRatingCount,
                          lastUpdated := now, firstSeen := now }
        store)

/-- The document `TransferStats` builds for the target: when a target
exists, sum the counts, take the count-weighted mean rating when the summed
count is positive, and preserve the analytics metrics of the target;
otherwise copy the source document (the Go struct copy decodes the source
document, and `claimed_to` is not a struct field, hence not carried over).
Both branches are followed by the claim stamping of `claimed_from` and
`claimed_at`, also included here. -/
def transferNewStats (now : Nat) (toServerID fromSource toSource : String)
    (sourceStats : ServerStats) (targetOpt : Option ServerStats) : ServerStats :=
  let newStats : ServerStats :=
    match targetOpt with
    | some targetStats =>
      let merged : ServerStats :=
        { emptyStats with
          serverId := BVal.str toServerID
          source := toSource
          installationCount := targetStats.installationCount + sourceStats.installationCount
          ratingCount := targetStats.ratingCount + sourceStats.ratingCount
          lastUpdated := now }
      let merged :=
        if 0 < merged.ratingCount then
          { merged with rating :=
              (targetStats.rating * (targetStats.ratingCount : ℚ) +
               sourceStats.rating * (sourceStats.ratingCount : ℚ)) / (merged.ratingCount : ℚ) }
        else merged
      { merged with
        activeInstalls := targetStats.activeInstalls
        dailyActiveUsers := targetStats.dailyActiveUsers
        monthlyActiveUsers := targetStats.monthlyActiveUsers }
    | none =>
      { sourceStats with
        serverId := BVal.str toServerID
        source := toSource
        lastUpdated := now
        claimedTo := none }
  { newStats with claimedFrom := fromSource, claimedAt := now }

/-- The audit stamp `TransferStats` writes on the source document. -/
def claimStamp (now : Nat) (toServerID : String) (d : ServerStats) : ServerStats :=
  { d with claimedAt := now, claimedTo := some toServerID }

/-- `TransferStats` (extensions/stats/database.go), data semantics of the
read-merge-write (the interplay with the store mutex is modelled separately
by `transferStatsLocked`): default the sources, read the source document
(return unchanged when absent), read the target document, build the merged
or copied target via `transferNewStats`, upsert it and annotate the source
document with `claimed_at` and `claimed_to`. -/
def transferStats (now : Nat) (fromServerID toServerID fromSource toSource : String)
    (store : List ServerStats) : List ServerStats :=
  let fromSource := if fromSource = "" then SourceCommunity else fromSource
  let toSource := if toSource = "" then SourceRegistry else toSource
  match findOneStats store (BVal.str fromServerID) fromSource with
  | none => store
  | some sourceStats =>
    let newStats := transferNewStats now toServerID fromSource toSource sourceStats
      (findOneStats store (BVal.str toServerID) toSource)
    updateOne (statsFilter (BVal.str fromServerID) fromSource)
      (claimStamp now toServerID) (upsertStats now newStats store)

/-! The store mutex of `MongoDatabase`.  `TransferStats` takes the write
lock at entry and then calls `UpsertStats`, which takes the same
non-reentrant write lock again.  Acquiring a held lock never returns;
`none` models that the call blocks forever. -/

/-- Acquiring a sync.RWMutex write lock: succeeds when free, blocks forever
(no result) when already held by the caller, since the lock is not
reentrant. -/
def mutexAcquire : Bool → Option Bool
  | false => some true
  | true => none

/-- `UpsertStats` with its lock acquisition made explicit: it locks the
store mutex before doing the upsert. -/
def upsertStatsLocked (held : Bool) (now : Nat) (stats : ServerStats)
    (store : List ServerStats) : Option (List ServerStats) :=
  match mutexAcquire held with
  | none => none
  | some _ => some (upsertStats now stats store)

/-- `TransferStats` with the mutex interplay made explicit: the write lock
is taken at entry and still held when `UpsertStats` is called on the
transfer path. -/
def transferStatsLocked (now : Nat) (fromServerID toServerID fromSource toSource : String)
    (store : List ServerStats) : Option (List ServerStats) :=
  match mutexAcquire false with
  | none => none
  | some held =>
    let fromSource := if fromSource = "" then SourceCommunity else fromSource
    let toSource := if toSource = "" then SourceRegistry else toSource
    match findOneStats store (BVal.str fromServerID) fromSource with
    | none => some store
    | some sourceStats =>
      let newStats := transferNewStats now toServerID fromSource toSource sourceStats
        (findOneStats store (BVal.str toServerID) toSource)
      match upsertStatsLocked held now newStats store with
      | none => none
      | some store1 =>
        some (updateOne (statsFilter (BVal.str fromServerID) fromSource)
          (claimStamp now toServerID) store1)

/-! `SyncAnalyticsData` (extensions/stats/database.go).  Note that the
filter it builds is the document `{server_id: update.InstallationDelta}`,
so the key used for the upsert is the integer installation delta of the
request, not a server id (`StatsUpdateRequest` carries no server id). -/

/-- The `StatsUpdateRequest` struct of extensions/stats/model.go. -/
structure StatsUpdateRequest where
  installationDelta : Int
  activeInstalls : Int
  dailyActiveUsers : Int
  monthlyActiveUsers : Int
  lastUpdated : Nat
deriving DecidableEq

/-- One `UpdateOneModel` of the `SyncAnalyticsData` bulk write: filter on
`{server_id: InstallationDelta}`, `$set` the analytics fields, upsert. -/
def syncAnalyticsOne (now : Nat) (store : List ServerStats)
    (u : StatsUpdateRequest) : List ServerStats :=
  let p := fun (d : ServerStats) => decide (d.serverId = BVal.int u.installationDelta)
  let setf := fun (d : ServerStats) =>
    { d with activeInstalls := u.activeInstalls
             dailyActiveUsers := u.dailyActiveUsers
             monthlyActiveUsers := u.monthlyActiveUsers
             lastUpdated := now }
  updateOneUpsert p setf (setf { emptyStats with serverId := BVal.int u.installationDelta }) store

/-- `SyncAnalyticsData`: the ordered bulk write applies the update models in
sequence. -/
def syncAnalyticsData (now : Nat) (updates : List StatsUpdateRequest)
    (store : List ServerStats) : List ServerStats :=
  updates.foldl (syncAnalyticsOne now) store

/-! The in-memory cache (`CacheService` in the stats package).  `Delete`
removes exactly the given key from the map; there is no pattern matching. -/

/-- Cache get: exact key lookup. -/
def cacheGet {α : Type} (c : List (String × α)) (key : String) : Option α :=
  (c.find? (fun e => decide (e.1 = key))).map Prod.snd

/-- Cache set: overwrite the entry of the exact key. -/
def cacheSet {α : Type} (c : List (String × α)) (key : String) (v : α) :
    List (String × α) :=
  (key, v) :: c.filter (fun e => decide (e.1 ≠ key))

/-- Cache delete: a plain Go map delete of exactly the given key. -/
def cacheDelete {α : Type} (c : List (String × α)) (key : String) :
    List (String × α) :=
  c.filter (fun e => decide (e.1 ≠ key))

/-- The cache key built by `GetServerFeedbackHandler` for a feedback list
page (extensions/vp/handlers/feedback.go). -/
def feedbackListCacheKey (serverID source : String) (limit offset : Int)
    (sort : String) : String :=
  "vp:feedback:" ++ serverID ++ ":" ++ source ++ ":" ++ toString limit ++ ":" ++
    toString offset ++ ":" ++ sort

/-- `invalidateFeedbackCache` (extensions/vp/handlers/feedback.go): the
exact keys passed to `Delete`, including the literal wildcard string for
the feedback lists. -/
def invalidateFeedbackCache {α : Type} (serverID source : String)
    (c : List (String × α)) : List (String × α) :=
  let c := cacheDelete c ("vp:feedback:" ++ serverID ++ ":*")
  let c := cacheDelete c ("vp:server:" ++ serverID)
  let c := cacheDelete c ("vp:stats:" ++ serverID)
  let c := if source ≠ "" then cacheDelete c ("vp:stats:" ++ serverID ++ ":" ++ source) else c
  cacheDelete c "vp:servers:"

/-! The feedback store (`MongoFeedbackDatabase`) and the feedback
handlers. -/

/-- A document of the `server_feedback` collection (the `ServerFeedback`
struct without the display-only fields, which are not persisted). -/
structure ServerFeedback where
  id : String
  serverId : String
  source : String
  userId : String
  rating : ℚ
  comment : String
  createdAt : Nat
  updatedAt : Nat
  isPublic : Bool
deriving DecidableEq

/-- Error value `ErrFeedbackNotFound`. -/
def errFeedbackNotFound : String := "feedback not found"

/-- Error value `ErrDuplicateFeedback`. -/
def errDuplicateFeedback : String := "user has already submitted feedback for this server"

/-- The in-place mutation chain `CreateFeedback`
(extensions/stats/feedback_database.go) applies to the request document
before inserting it: write back the sanitized server id and the validated
source, assign a fresh id when absent, stamp both timestamps, and force
`is_public` to true when it is false. -/
def createFeedbackDoc (now : Nat) (freshId sanitizedServerID validatedSource : String)
    (feedback : ServerFeedback) : ServerFeedback :=
  let fb := { feedback with serverId := sanitizedServerID, source := validatedSource }
  let fb := if fb.id = "" then { fb with id := freshId } else fb
  let fb := { fb with createdAt := now, updatedAt := now }
  if !fb.isPublic then { fb with isPublic := true } else fb

/-- `CreateFeedback` (extensions/stats/feedback_database.go): reject empty
server or user ids, sanitize the server id, validate the (defaulted)
source, run the mutation chain of `createFeedbackDoc`, then insert; the
unique indexes on the id and on `(server_id, user_id, source)` turn
duplicates into `ErrDuplicateFeedback`.  Returns the inserted document and
the new collection. -/
def createFeedback (now : Nat) (freshId : String) (feedback : ServerFeedback)
    (store : List ServerFeedback) :
    Except String (ServerFeedback × List ServerFeedback) :=
  if feedback.serverId = "" ∨ feedback.userId = "" then
    .error "server_id and user_id are required"
  else
    match sanitizeServerID feedback.serverId with
    | .error _ => .error "invalid server ID"
    | .ok sanitizedServerID =>
      match validateSource
          (if feedback.source = "" then SourceRegistry else feedback.source) with
      | .error _ => .error "invalid source"
      | .ok validatedSource =>
        let fb6 := createFeedbackDoc now freshId sanitizedServerID validatedSource feedback
        if store.any (fun d => decide (d.id = fb6.id) ||
            decide (d.serverId = fb6.serverId ∧ d.userId = fb6.userId ∧ d.source = fb6.source)) then
          .error errDuplicateFeedback
        else
          .ok (fb6, store ++ [fb6])

/-- `UpdateFeedback` (extensions/stats/feedback_database.go): the update
filter matches the id together with the user id; zero matches surface as
`ErrFeedbackNotFound`. -/
def updateFeedback (now : Nat) (feedback : ServerFeedback)
    (store : List ServerFeedback) : Except String (List ServerFeedback) :=
  if feedback.id = "" then .error "feedback ID is required"
  else
    let p := fun (d : ServerFeedback) => decide (d.id = feedback.id ∧ d.userId = feedback.userId)
    match store.find? p with
    | none => .error errFeedbackNotFound
    | some _ =>
      .ok (updateOne p
        (fun d => { d with rating := feedback.rating, comment := feedback.comment,
                           updatedAt := now }) store)

/-- Mongo `DeleteOne`: remove the first document matching `p`. -/
def deleteOne {α : Type} (p : α → Bool) : List α → List α
  | [] => []
  | d :: ds => if p d then ds else d :: deleteOne p ds

/-- `DeleteFeedback` (extensions/stats/feedback_database.go): the delete
filter matches the id together with the user id; zero deletions surface as
`ErrFeedbackNotFound`. -/
def deleteFeedback (feedbackID userID : String) (store : List ServerFeedback) :
    Except String (List ServerFeedback) :=
  if feedbackID = "" ∨ userID = "" then .error "feedback_id and user_id are required"
  else
    let p := fun (d : ServerFeedback) => decide (d.id = feedbackID ∧ d.userId = userID)
    if store.any p then .ok (deleteOne p store) else .error errFeedbackNotFound

/-- HTTP outcome of a handler, as far as the claims are concerned. -/
inductive HandlerResult where
  | ok : HandlerResult
  | badRequest : HandlerResult
  | notFound : HandlerResult
  | forbidden : HandlerResult
  | internalError : HandlerResult
deriving DecidableEq

/-- The body of a `FeedbackUpdateRequest`. -/
structure FeedbackUpdateRequest where
  rating : ℚ
  comment : String
  userId : String
deriving DecidableEq

/-- `UpdateFeedbackHandler` (extensions/vp/handlers/feedback.go): after the
input checks it fetches the feedback by id alone; a missing document gives
404, a document owned by a different user gives 403, otherwise the store
update runs (the follow-up `UpdateRating` call and the cache invalidation
are modelled by `updateRating` and `invalidateFeedbackCache`). -/
def updateFeedbackHandler (now : Nat) (feedbackID : String)
    (req : FeedbackUpdateRequest) (store : List ServerFeedback) :
    HandlerResult × List ServerFeedback :=
  if req.rating < 1 ∨ 5 < req.rating then (.badRequest, store)
  else if 1000 < req.comment.utf8ByteSize then (.badRequest, store)
  else if req.userId = "" then (.badRequest, store)
  else
    match store.find? (fun d => decide (d.id = feedbackID)) with
    | none => (.notFound, store)
    | some existing =>
      if existing.userId ≠ req.userId then (.forbidden, store)
      else
        match updateFeedback now
            { existing with rating := req.rating, comment := req.comment } store with
        | .error _ => (.internalError, store)
        | .ok store2 => (.ok, store2)

/-- `DeleteFeedbackHandler` (extensions/vp/handlers/feedback.go): requires a
user id, then delegates to the store delete; `ErrFeedbackNotFound` maps to
404, other errors to 500. -/
def deleteFeedbackHandler (feedbackID userID : String)
    (store : List ServerFeedback) : HandlerResult × List ServerFeedback :=
  if userID = "" then (.badRequest, store)
  else
    match deleteFeedback feedbackID userID store with
    | .error e => if e = errFeedbackNotFound then (.notFound, store) else (.internalError, store)
    | .ok store2 => (.ok, store2)

/-! The analytics metrics document (`analytics_metrics`, `_id` =
global_metrics) and `RecordActivity`.  `UpdateAnalyticsMetrics` wraps the
whole update map in one `$set`, so a counter entry built as the document
`bson.M for $inc: 1` is stored literally as that document instead of being
applied as an increment operator. -/

/-- A value held by a counter field of the metrics document: either a
number, or the literal one-entry update document with the increment key
that `RecordActivity` builds. -/
inductive MVal where
  | num : Int → MVal
  | incDoc : Int → MVal
deriving DecidableEq

/-- The counter fields of the global metrics document touched by
`RecordActivity`. -/
structure AnalyticsMetrics where
  totalInstalls : MVal
  installsToday : MVal
  totalRatings : MVal
  totalSearches : MVal
  lastUpdated : Nat
deriving DecidableEq

/-- An `ActivityEvent` document (the fields the embedded operations use). -/
structure ActivityEvent where
  id : String
  type : String
  serverId : String
  value : String
  timestamp : Nat
deriving DecidableEq

/-- Store one `$set` assignment on the metrics document. -/
def setMetricField (m : AnalyticsMetrics) : String × MVal → AnalyticsMetrics
  | ("total_installs", v) => { m with totalInstalls := v }
  | ("installs_today", v) => { m with installsToday := v }
  | ("total_ratings", v) => { m with totalRatings := v }
  | ("total_searches", v) => { m with totalSearches := v }
  | _ => m

/-- `UpdateAnalyticsMetrics` (the analytics database): add the
`last_updated` stamp to the update map and apply the whole map as a single
`$set` on the global metrics document. -/
def updateAnalyticsMetrics (now : Nat) (updates : List (String × MVal))
    (m : AnalyticsMetrics) : AnalyticsMetrics :=
  { updates.foldl setMetricField m with lastUpdated := now }

/-- State of the analytics store relevant to `RecordActivity`: the
append-only activity collection and the global metrics document. -/
structure AnalyticsState where
  activity : List ActivityEvent
  metrics : AnalyticsMetrics
deriving DecidableEq

/-- `RecordActivity` (the analytics database): assign a fresh id and the
current timestamp, insert the event, then hand the per-type counter
updates (built as literal increment documents) to
`UpdateAnalyticsMetrics`. -/
def recordActivity (now : Nat) (newId : String) (event : ActivityEvent)
    (st : AnalyticsState) : AnalyticsState :=
  let event := { event with id := newId, timestamp := now }
  let st := { st with activity := st.activity ++ [event] }
  let updates : List (String × MVal) :=
    if event.type = "install" then
      [("total_installs", MVal.incDoc 1), ("installs_today", MVal.incDoc 1)]
    else if event.type = "rating" then [("total_ratings", MVal.incDoc 1)]
    else if event.type = "search" then [("total_searches", MVal.incDoc 1)]
    else []
  if updates.isEmpty then st
  else { st with metrics := updateAnalyticsMetrics now updates st.metrics }

/-! The trending pipeline behind GET /vp/stats/trending
(`GetTrendingHandler` delegates to `MongoDatabase.GetTrending`, the
aggregation over the `server_stats` collection).  The pipeline references
the fields `weekly_growth` and `active_installs`; in the aggregation
expression language a missing field makes the whole arithmetic expression
null.  No code path ever writes a `weekly_growth` field into
`server_stats` documents (the `ServerStats` struct has no such field), and
the `omitempty` analytics fields are absent while zero. -/

/-- The value of an aggregation arithmetic expression: null-propagating
rationals. -/
def mongoNum (present : Bool) (q : ℚ) : Option ℚ :=
  if present then some q else none

/-- Null-propagating product, as in the aggregation expression language. -/
def mongoMul (a b : Option ℚ) : Option ℚ :=
  match a, b with
  | some x, some y => some (x * y)
  | _, _ => none

/-- Null-propagating sum, as in the aggregation expression language. -/
def mongoAdd (xs : List (Option ℚ)) : Option ℚ :=
  xs.foldl (fun acc x =>
    match acc, x with
    | some a, some b => some (a + b)
    | _, _ => none) (some 0)

/-- The `trend_score` expression of `GetTrending`: ten times the weekly
growth plus a tenth of the installation count plus a rating quality factor
plus three tenths of the active installs, each factor null when its field
is missing. -/
def trendScore (d : ServerStats) : Option ℚ :=
  mongoAdd
    [ mongoMul (mongoNum false 0) (some 10)
    , mongoMul (some (d.installationCount : ℚ)) (some (1 / 10))
    , mongoMul (some d.rating) (mongoMul (some (d.ratingCount : ℚ)) (some (1 / 20)))
    , mongoMul (mongoNum (decide (d.activeInstalls ≠ 0)) (d.activeInstalls : ℚ)) (some (3 / 10)) ]

/-- Descending comparison on trend scores; numbers sort before null in a
descending sort, equal keys have no guaranteed relative order (the model
keeps the stored order). -/
def scoreGT (a b : ServerStats) : Bool :=
  match trendScore a, trendScore b with
  | some x, some y => decide (y < x)
  | some _, none => true
  | none, _ => false

/-- Insert a document into a score-descending list, after any document
whose score is not strictly smaller. -/
def insertScoreDesc : List ServerStats → ServerStats → List ServerStats
  | [], d => [d]
  | e :: es, d => if scoreGT d e then d :: e :: es else e :: insertScoreDesc es d

/-- Stable sort of the matched documents by descending trend score. -/
def sortScoreDesc (l : List ServerStats) : List ServerStats :=
  l.foldl insertScoreDesc []

/-- `GetTrending` (extensions/stats/database.go): validate the limit, build
the safe source filter, score, sort descending, truncate. -/
def getTrending (limit : Int) (source : String) (store : List ServerStats) :
    Except String (List ServerStats) := do
  let validatedLimit ← validateLimit limit
  let filter ← createSafeFilter source
  .ok ((sortScoreDesc (store.filter filter)).take validatedLimit.toNat)

/-- The shape of one entry of the GET /vp/stats/trending response, reduced
to the fields the trending claims talk about.  `ExtendedServer`
(extensions/vp/model/extended_server.go) carries no trend-period and no
momentum field, hence those are `none` for every entry the endpoint
produces. -/
structure TrendingEntry where
  serverId : BVal
  rating : ℚ
  trendPeriod : Option String
  momentumChange : Option ℚ
deriving DecidableEq

/-- GET /vp/stats/trending (`GetTrendingHandler` in
extensions/vp/handlers/stats.go): the trending stats are wrapped into
`ExtendedServer` values (the catalog lookup is treated as total here; it
can only drop entries, never add trend fields). -/
def vpStatsTrending (limit : Int) (source : String) (store : List ServerStats) :
    Except String (List TrendingEntry) :=
  (getTrending limit source store).map
    (List.map (fun d => ⟨d.serverId, d.rating, none, none⟩))

/-- Descending comparison by rating, ties by installation count, for the
padding step the specification describes. -/
def ratingInstallGT (a b : ServerStats) : Bool :=
  decide (b.rating < a.rating) ||
    (decide (a.rating = b.rating) && decide (b.installationCount < a.installationCount))

/-- Insert into a rating-descending list, after any document that does not
compare strictly smaller. -/
def insertRatingDesc : List ServerStats → ServerStats → List ServerStats
  | [], d => [d]
  | e :: es, d => if ratingInstallGT d e then d :: e :: es else e :: insertRatingDesc es d

/-- Stable sort by rating descending, installation count descending. -/
def sortRatingDesc (l : List ServerStats) : List ServerStats :=
  l.foldl insertRatingDesc []

/-- Modelled from the spec: the behaviour the specification attributes to
GET /vp/stats/trending when there are no install-type activity events in
the last 48 hours — pad the whole result from the top-rated servers
(rating at least 4.0, sorted by rating descending then install count
descending) and mark every padded entry with the all-time trend period and
zero momentum change.  This definition follows the words of the spec; the
code-side counterpart is `vpStatsTrending`. -/
def specTrendingPad (limit : Nat) (store : List ServerStats) :
    List TrendingEntry :=
  ((sortRatingDesc (store.filter (fun d => decide ((4 : ℚ) ≤ d.rating)))).take limit).map
    (fun d => ⟨d.serverId, d.rating, some "all-time", some 0⟩)

/-! Concrete fixtures used by the scenario theorems below. -/

/-- The community stats record of the claim-transfer scenario:
100 installs, mean rating 4.0 over 10 ratings. -/
def communityRec : ServerStats :=
  { emptyStats with
    serverId := BVal.str "A"
    source := "COMMUNITY"
    installationCount := 100
    rating := 4
    ratingCount := 10
    firstSeen := 1
    lastUpdated := 1 }

/-- Trending fixture: rating 4.5 over 6 ratings. -/
def recRating45 : ServerStats :=
  { emptyStats with
    serverId := BVal.str "s45"
    source := "REGISTRY"
    installationCount := 10
    rating := ⟨9, 2, by decide, by decide⟩
    ratingCount := 6 }

/-- Trending fixture: rating 4.2 over 7 ratings. -/
def recRating42 : ServerStats :=
  { emptyStats with
    serverId := BVal.str "s42"
    source := "REGISTRY"
    installationCount := 5
    rating := ⟨21, 5, by decide, by decide⟩
    ratingCount := 7 }

/-- Trending fixture: rating 3.9 over 8 ratings. -/
def recRating39 : ServerStats :=
  { emptyStats with
    serverId := BVal.str "s39"
    source := "REGISTRY"
    installationCount := 1000
    rating := ⟨39, 10, by decide, by decide⟩
    ratingCount := 8 }

/-- The three-record stats store of the trending scenario. -/
def trendingStore : List ServerStats := [recRating45, recRating42, recRating39]

/-- A stats record for the server foo, with one active install recorded. -/
def fooStats : ServerStats :=
  { emptyStats with
    serverId := BVal.str "foo"
    source := "REGISTRY"
    activeInstalls := 1
    dailyActiveUsers := 1
    monthlyActiveUsers := 1 }

/-- An analytics update that (per the claim) targets the server foo with
fresh analytics counters; the request type carries no server id. -/
def fooUpdate : StatsUpdateRequest := ⟨0, 7, 8, 9, 0⟩

/-- A feedback record by user alice on the server srv. -/
def aliceFeedback : ServerFeedback := ⟨"f1", "srv", "REGISTRY", "alice", 5, "", 10, 10, true⟩

/-- A feedback submission with `is_public` explicitly false. -/
def privateFeedbackReq : ServerFeedback := ⟨"", "srv", "", "alice", 5, "nice", 0, 0, false⟩

/-- The global metrics document with numeric counters, before an event. -/
def metricsBefore : AnalyticsMetrics := ⟨.num 5, .num 2, .num 3, .num 4, 0⟩

/-- An install activity event as handed to `RecordActivity`. -/
def installEvent : ActivityEvent := ⟨"", "install", "srv", "", 0⟩

/-- Structural decidable equality for `Except` results. -/
def exceptDecEq {e a : Type} [DecidableEq e] [DecidableEq a] :
    (x y : Except e a) → Decidable (x = y)
  | .error u, .error v =>
    if h : u = v then .isTrue (congrArg Except.error h)
    else .isFalse (fun hh => h (Except.error.inj hh))
  | .error _, .ok _ => .isFalse (fun hh => Except.noConfusion hh)
  | .ok _, .error _ => .isFalse (fun hh => Except.noConfusion hh)
  | .ok x, .ok y =>
    if h : x = y then .isTrue (congrArg Except.ok h)
    else .isFalse (fun hh => h (Except.ok.inj hh))

instance {e a : Type} [DecidableEq e] [DecidableEq a] : DecidableEq (Except e a) :=
  exceptDecEq

/-! General lemmas about `List.find?`, `updateOne` and `deleteOne`. -/

theorem find?_append_none {α : Type} (p : α → Bool) (l₁ l₂ : List α)
    (h : l₁.find? p = none) : (l₁ ++ l₂).find? p = l₂.find? p := by
  induction l₁ with
  | nil => rfl
  | cons d ds ih =>
    by_cases hp : p d
    · simp [List.find?_cons, hp] at h
    · simp only [List.cons_append, List.find?_cons, hp, cond_false] at h ⊢
      exact ih h

theorem find?_append_some {α : Type} (p : α → Bool) (l₁ l₂ : List α) (c : α)
    (h : l₁.find? p = some c) : (l₁ ++ l₂).find? p = some c := by
  induction l₁ with
  | nil => simp [List.find?] at h
  | cons d ds ih =>
    rw [List.cons_append]
    rw [List.find?_cons] at h ⊢
    cases hp : p d
    · simp only [hp, cond_false] at h ⊢
      exact ih h
    · simp only [hp, cond_true] at h ⊢
      exact h

theorem updateOne_of_find?_none {α : Type} (p : α → Bool) (f : α → α)
    (l : List α) (h : l.find? p = none) : updateOne p f l = l := by
  induction l with
  | nil => rfl
  | cons d ds ih =>
    by_cases hp : p d
    · simp [List.find?_cons, hp] at h
    · simp only [List.find?_cons, hp, cond_false] at h
      simp [updateOne, hp, ih h]

theorem find?_updateOne_of_disjoint {α : Type} (p q : α → Bool) (f : α → α)
    (hpq : ∀ d, q d = true → p d = false)
    (hf : ∀ d, q d = true → p (f d) = false) (l : List α) :
    (updateOne q f l).find? p = l.find? p := by
  induction l with
  | nil => rfl
  | cons d ds ih =>
    by_cases hq : q d
    · simp [updateOne, hq, List.find?_cons, hf d hq, hpq d hq]
    · simp only [updateOne, if_neg hq]
      by_cases hp : p d
      · simp [List.find?_cons, hp]
      · simp [List.find?_cons, hp, ih]

theorem find?_updateOne_self {α : Type} (q : α → Bool) (f : α → α)
    (l : List α) (c : α) (hq : l.find? q = some c)
    (hf : ∀ d, q d = true → q (f d) = true) :
    (updateOne q f l).find? q = some (f c) := by
  induction l with
  | nil => simp [List.find?] at hq
  | cons d ds ih =>
    by_cases hd : q d
    · simp only [List.find?_cons, hd, cond_true, Option.some.injEq] at hq
      subst hq
      simp [updateOne, hd, List.find?_cons, hf d hd]
    · simp only [List.find?_cons, hd, cond_false] at hq
      simp [updateOne, hd, List.find?_cons, ih hq]

/-! Structure of one `TransferStats` run: the shape of the built target
document and where it lands in the store. -/

theorem transferNewStats_none (now : Nat) (toID fs ts : String) (c : ServerStats) :
    transferNewStats now toID fs ts c none =
      { c with
        serverId := BVal.str toID
        source := ts
        lastUpdated := now
        claimedTo := none
        claimedFrom := fs
        claimedAt := now } := by
  simp [transferNewStats]

theorem transferNewStats_some (now : Nat) (toID fs ts : String) (c t : ServerStats) :
    transferNewStats now toID fs ts c (some t) =
      { serverId := BVal.str toID
        source := ts
        installationCount := t.installationCount + c.installationCount
        rating := if 0 < t.ratingCount + c.ratingCount then
            (t.rating * (t.ratingCount : ℚ) + c.rating * (c.ratingCount : ℚ)) /
              ((t.ratingCount + c.ratingCount : Int) : ℚ)
          else 0
        ratingCount := t.ratingCount + c.ratingCount
        firstSeen := 0
        lastUpdated := now
        activeInstalls := t.activeInstalls
        dailyActiveUsers := t.dailyActiveUsers
        monthlyActiveUsers := t.monthlyActiveUsers
        claimedFrom := fs
        claimedAt := now
        claimedTo := none } := by
  by_cases h : 0 < t.ratingCount + c.ratingCount
  · simp [transferNewStats, emptyStats, h]
  · simp [transferNewStats, emptyStats, h]

theorem transferStep_absent (now : Nat) (A : String) (store : List ServerStats)
    (c : ServerStats)
    (hc : findOneStats store (BVal.str A) SourceCommunity = some c)
    (hno : findOneStats store (BVal.str A) SourceRegistry = none) :
    findOneStats (transferStats now A A SourceCommunity SourceRegistry store)
        (BVal.str A) SourceRegistry =
      some (setStructFields emptyStats
        { c with
          serverId := BVal.str A
          source := SourceRegistry
          lastUpdated := now
          claimedTo := none
          claimedFrom := SourceCommunity
          claimedAt := now }) ∧
    findOneStats (transferStats now A A SourceCommunity SourceRegistry store)
        (BVal.str A) SourceCommunity = some (claimStamp now A c) := by
  have hno' : List.find? (statsFilter (BVal.str A) "REGISTRY") store = none := by
    simpa [findOneStats, SourceRegistry] using hno
  have hc' : List.find? (statsFilter (BVal.str A) "COMMUNITY") store = some c := by
    simpa [findOneStats, SourceCommunity] using hc
  have key : transferStats now A A SourceCommunity SourceRegistry store =
      updateOne (statsFilter (BVal.str A) SourceCommunity) (claimStamp now A)
        (upsertStats now (transferNewStats now A SourceCommunity SourceRegistry c
          (findOneStats store (BVal.str A) SourceRegistry)) store) := by
    simp [transferStats, SourceCommunity, SourceRegistry] at hc ⊢
    simp [hc]
  rw [hno, transferNewStats_none] at key
  set ns : ServerStats :=
    { c with
      serverId := BVal.str A
      source := SourceRegistry
      lastUpdated := now
      claimedTo := none
      claimedFrom := SourceCommunity
      claimedAt := now } with hns
  have hup : upsertStats now ns store = store ++ [setStructFields emptyStats ns] := by
    simp [upsertStats, updateOneUpsert, hns, SourceRegistry, hno']
  rw [hup] at key
  constructor
  · rw [key]
    show List.find? _ _ = _
    rw [show (SourceRegistry : String) = "REGISTRY" from rfl]
    rw [find?_updateOne_of_disjoint]
    · rw [find?_append_none _ _ _ hno']
      simp [List.find?, statsFilter, hns, SourceRegistry, setStructFields]
    · intro d hd
      simp [statsFilter, SourceCommunity] at hd
      simp [statsFilter, hd.2]
    · intro d hd
      simp [statsFilter, SourceCommunity] at hd
      simp [statsFilter, claimStamp, hd.2]
  · rw [key]
    show List.find? _ _ = _
    rw [show (SourceCommunity : String) = "COMMUNITY" from rfl]
    rw [find?_updateOne_self _ _ _ c]
    · exact find?_append_some _ _ _ _ hc'
    · intro d hd
      simpa [statsFilter, claimStamp] using hd

theorem transferStep_present (now : Nat) (A : String) (store : List ServerStats)
    (c t0 : ServerStats)
    (hc : findOneStats store (BVal.str A) SourceCommunity = some c)
    (ht0 : findOneStats store (BVal.str A) SourceRegistry = some t0) :
    findOneStats (transferStats now A A SourceCommunity SourceRegistry store)
        (BVal.str A) SourceRegistry =
      some (setStructFields t0
        (transferNewStats now A SourceCommunity SourceRegistry c (some t0))) ∧
    findOneStats (transferStats now A A SourceCommunity SourceRegistry store)
        (BVal.str A) SourceCommunity = some (claimStamp now A c) := by
  have ht0' : List.find? (statsFilter (BVal.str A) "REGISTRY") store = some t0 := by
    simpa [findOneStats, SourceRegistry] using ht0
  have hc' : List.find? (statsFilter (BVal.str A) "COMMUNITY") store = some c := by
    simpa [findOneStats, SourceCommunity] using hc
  have key : transferStats now A A SourceCommunity SourceRegistry store =
      updateOne (statsFilter (BVal.str A) SourceCommunity) (claimStamp now A)
        (upsertStats now (transferNewStats now A SourceCommunity SourceRegistry c
          (findOneStats store (BVal.str A) SourceRegistry)) store) := by
    simp [transferStats, SourceCommunity, SourceRegistry] at hc ⊢
    simp [hc]
  rw [ht0] at key
  set ns : ServerStats :=
    transferNewStats now A SourceCommunity SourceRegistry c (some t0) with hns
  have hnsfields : ns.serverId = BVal.str A ∧ ns.source = "REGISTRY" := by
    rw [hns, transferNewStats_some]
    exact ⟨rfl, rfl⟩
  have hsetp : ∀ d : ServerStats,
      statsFilter (BVal.str A) "REGISTRY" (setStructFields d ns) = true := by
    intro d
    simp [statsFilter, setStructFields, hnsfields.1, hnsfields.2]
  have hup : upsertStats now ns store =
      updateOne (statsFilter (BVal.str A) "REGISTRY") (fun old => setStructFields old ns) store := by
    have hsrc : (ns.source = "") = False := by
      simp [hnsfields.2]
    have hnsj : { ns with lastUpdated := now } = ns := by
      rw [hns, transferNewStats_some]
    simp only [upsertStats, hsrc, if_false, updateOneUpsert, hnsj]
    rw [hnsfields.1, hnsfields.2, ht0']
  rw [hup] at key
  have htmid : List.find? (statsFilter (BVal.str A) "REGISTRY")
      (updateOne (statsFilter (BVal.str A) "REGISTRY") (fun old => setStructFields old ns) store) =
      some (setStructFields t0 ns) := by
    rw [find?_updateOne_self _ _ _ t0 ht0']
    intro d _
    exact hsetp d
  constructor
  · rw [key]
    show List.find? _ _ = _
    rw [show (SourceRegistry : String) = "REGISTRY" from rfl]
    rw [find?_updateOne_of_disjoint]
    · exact htmid
    · intro d hd
      simp [statsFilter, SourceCommunity] at hd
      simp [statsFilter, hd.2]
    · intro d hd
      simp [statsFilter, SourceCommunity] at hd
      simp [statsFilter, claimStamp, hd.2]
  · rw [key]
    show List.find? _ _ = _
    rw [show (SourceCommunity : String) = "COMMUNITY" from rfl]
    rw [find?_updateOne_self _ _ _ c]
    · rw [find?_updateOne_of_disjoint]
      · exact hc'
      · intro d hd
        simp [statsFilter, SourceRegistry] at hd
        simp [statsFilter, hd.2]
      · intro d hd
        simp [statsFilter] at hd
        simp [statsFilter, setStructFields, hnsfields.2]
    · intro d hd
      simpa [statsFilter, claimStamp] using hd

/-- C1: when a COMMUNITY stats record with install count 100, rating 4.0
and rating count 10 exists for server X and no REGISTRY record exists,
TransferStats(X, X, COMMUNITY, REGISTRY) leaves a REGISTRY record with
install count 100, rating 4.0, rating count 10 and claimed-from COMMUNITY,
and the COMMUNITY record still exists (not deleted) with its counters
intact and claimed-to set to X. -/
theorem C1_claim_transfer (now : Nat) (X : String) (store : List ServerStats)
    (c : ServerStats)
    (hc : findOneStats store (BVal.str X) SourceCommunity = some c)
    (h100 : c.installationCount = 100) (h4 : c.rating = 4) (h10 : c.ratingCount = 10)
    (hno : findOneStats store (BVal.str X) SourceRegistry = none) :
    (findOneStats (transferStats now X X SourceCommunity SourceRegistry store)
        (BVal.str X) SourceRegistry).map
        (fun t => (t.installationCount, t.rating, t.ratingCount, t.claimedFrom)) =
      some (100, 4, 10, SourceCommunity) ∧
    (findOneStats (transferStats now X X SourceCommunity SourceRegistry store)
        (BVal.str X) SourceCommunity).map
        (fun d => (d.claimedTo, d.installationCount, d.rating, d.ratingCount)) =
      some (some X, 100, 4, 10) := by
  obtain ⟨ht, hs⟩ := transferStep_absent now X store c hc hno
  rw [ht, hs]
  simp [setStructFields, claimStamp, h100, h4, h10, SourceCommunity]

/-- Witness for C1 on the one-record store holding the community record of
the scenario. -/
theorem C1_claim_transfer_witness :
    findOneStats [communityRec] (BVal.str "A") SourceCommunity = some communityRec ∧
    communityRec.installationCount = 100 ∧ communityRec.rating = 4 ∧
    communityRec.ratingCount = 10 ∧
    findOneStats [communityRec] (BVal.str "A") SourceRegistry = none ∧
    ((findOneStats (transferStats 2 "A" "A" SourceCommunity SourceRegistry [communityRec])
        (BVal.str "A") SourceRegistry).map
        (fun t => (t.installationCount, t.rating, t.ratingCount, t.claimedFrom)) =
      some (100, 4, 10, SourceCommunity) ∧
    (findOneStats (transferStats 2 "A" "A" SourceCommunity SourceRegistry [communityRec])
        (BVal.str "A") SourceCommunity).map
        (fun d => (d.claimedTo, d.installationCount, d.rating, d.ratingCount)) =
      some (some "A", 100, 4, 10)) :=
  ⟨by decide, by decide, by decide, by decide, by decide,
    C1_claim_transfer 2 "A" [communityRec] communityRec (by decide) (by decide)
      (by decide) (by decide) (by decide)⟩

/-- C2 counterexample: with a single COMMUNITY record (100 installs, 10
ratings) and no REGISTRY record, one TransferStats run gives the REGISTRY
target 100 installs and 10 ratings, while running it twice gives 200 and
20: the source record is kept (only audit-stamped) and re-merged, so the
second run changes the target and the transfer is not idempotent. -/
theorem C2_transfer_twice_differs :
    (findOneStats (transferStats 2 "A" "A" "COMMUNITY" "REGISTRY" [communityRec])
        (BVal.str "A") "REGISTRY").map
        (fun t => (t.installationCount, t.ratingCount)) = some (100, 10) ∧
    (findOneStats (transferStats 3 "A" "A" "COMMUNITY" "REGISTRY"
        (transferStats 2 "A" "A" "COMMUNITY" "REGISTRY" [communityRec]))
        (BVal.str "A") "REGISTRY").map
        (fun t => (t.installationCount, t.ratingCount)) = some (200, 20) ∧
    some ((200 : Int), (20 : Int)) ≠ some ((100 : Int), (10 : Int)) := by
  decide

/-- C2 amended: TransferStats is not idempotent; whenever a COMMUNITY
source record exists, running the transfer a second time adds the source
counters to the target again: the target after two runs carries the
install count and rating count of the target after one run plus those of
the source once more, and its rating is the count-weighted mean of the
one-run target and the source. -/
theorem C2_transfer_rerun_adds_source (now1 now2 : Nat) (A : String)
    (store : List ServerStats) (c : ServerStats)
    (hc : findOneStats store (BVal.str A) SourceCommunity = some c) :
    ∃ t1 t2,
      findOneStats (transferStats now1 A A SourceCommunity SourceRegistry store)
          (BVal.str A) SourceRegistry = some t1 ∧
      findOneStats (transferStats now2 A A SourceCommunity SourceRegistry
          (transferStats now1 A A SourceCommunity SourceRegistry store))
          (BVal.str A) SourceRegistry = some t2 ∧
      t2.installationCount = t1.installationCount + c.installationCount ∧
      t2.ratingCount = t1.ratingCount + c.ratingCount ∧
      t2.rating = (if 0 < t1.ratingCount + c.ratingCount then
          (t1.rating * (t1.ratingCount : ℚ) + c.rating * (c.ratingCount : ℚ)) /
            ((t1.ratingCount + c.ratingCount : Int) : ℚ)
        else 0) := by
  have step1 : ∃ t1,
      findOneStats (transferStats now1 A A SourceCommunity SourceRegistry store)
          (BVal.str A) SourceRegistry = some t1 ∧
      findOneStats (transferStats now1 A A SourceCommunity SourceRegistry store)
          (BVal.str A) SourceCommunity = some (claimStamp now1 A c) := by
    cases hreg : findOneStats store (BVal.str A) SourceRegistry with
    | none =>
      obtain ⟨ht, hs⟩ := transferStep_absent now1 A store c hc hreg
      exact ⟨_, ht, hs⟩
    | some t0 =>
      obtain ⟨ht, hs⟩ := transferStep_present now1 A store c t0 hc hreg
      exact ⟨_, ht, hs⟩
  obtain ⟨t1, ht1, hs1⟩ := step1
  obtain ⟨ht2, _⟩ := transferStep_present now2 A
    (transferStats now1 A A SourceCommunity SourceRegistry store) (claimStamp now1 A c) t1 hs1 ht1
  refine ⟨t1, _, ht1, ht2, ?_, ?_, ?_⟩
  · rw [transferNewStats_some]
    simp [setStructFields, claimStamp]
  · rw [transferNewStats_some]
    simp [setStructFields, claimStamp]
  · rw [transferNewStats_some]
    simp [setStructFields, claimStamp]

/-- Witness for the amended C2 on the one-record community store. -/
theorem C2_transfer_rerun_adds_source_witness :
    findOneStats [communityRec] (BVal.str "A") SourceCommunity = some communityRec ∧
    (∃ t1 t2,
      findOneStats (transferStats 2 "A" "A" SourceCommunity SourceRegistry [communityRec])
          (BVal.str "A") SourceRegistry = some t1 ∧
      findOneStats (transferStats 3 "A" "A" SourceCommunity SourceRegistry
          (transferStats 2 "A" "A" SourceCommunity SourceRegistry [communityRec]))
          (BVal.str "A") SourceRegistry = some t2 ∧
      t2.installationCount = t1.installationCount + communityRec.installationCount ∧
      t2.ratingCount = t1.ratingCount + communityRec.ratingCount ∧
      t2.rating = (if 0 < t1.ratingCount + communityRec.ratingCount then
          (t1.rating * (t1.ratingCount : ℚ) +
            communityRec.rating * (communityRec.ratingCount : ℚ)) /
            ((t1.ratingCount + communityRec.ratingCount : Int) : ℚ)
        else 0)) :=
  ⟨by decide, C2_transfer_rerun_adds_source 2 3 "A" [communityRec] communityRec (by decide)⟩

/-- C3: whenever a stats record exists for the from-identity (with the
source defaulted to COMMUNITY when empty), TransferStats reaches its call
to UpsertStats while still holding the store write mutex it acquired at
entry; UpsertStats tries to acquire the same non-reentrant mutex, so the
call blocks forever instead of completing (modelled as no result). -/
theorem C3_transfer_self_deadlock (now : Nat)
    (fromServerID toServerID fromSource toSource : String)
    (store : List ServerStats) (c : ServerStats)
    (hc : findOneStats store (BVal.str fromServerID)
        (if fromSource = "" then SourceCommunity else fromSource) = some c) :
    transferStatsLocked now fromServerID toServerID fromSource toSource store = none := by
  simp only [transferStatsLocked, mutexAcquire, hc, upsertStatsLocked]

/-- Witness for C3 on the one-record community store. -/
theorem C3_transfer_self_deadlock_witness :
    findOneStats [communityRec] (BVal.str "A")
        (if "COMMUNITY" = "" then SourceCommunity else "COMMUNITY") = some communityRec ∧
    transferStatsLocked 2 "A" "A" "COMMUNITY" "REGISTRY" [communityRec] = none :=
  ⟨by decide,
    C3_transfer_self_deadlock 2 "A" "A" "COMMUNITY" "REGISTRY" [communityRec] communityRec
      (by decide)⟩

/-- `UpdateRating` on a key whose record exists: the stored rating becomes
the running mean over one more sample and the count increments. -/
theorem updateRating_existing (now : Nat) (sid src : String) (newR : ℚ)
    (store : List ServerStats) (rec : ServerStats)
    (hsan : sanitizeServerID sid = .ok sid)
    (hval : validateSource src = .ok src) (hne : src ≠ "")
    (hrec : findOneStats store (BVal.str sid) src = some rec) :
    ∃ store2, updateRating now sid src newR store = .ok store2 ∧
      (findOneStats store2 (BVal.str sid) src).map (fun d => (d.rating, d.ratingCount)) =
        some ((rec.rating * (rec.ratingCount : ℚ) + newR) / ((rec.ratingCount + 1 : Int) : ℚ),
              rec.ratingCount + 1) := by
  have key : updateRating now sid src newR store = .ok (updateOne (statsFilter (BVal.str sid) src)
      (fun d => { d with
        rating := (rec.rating * (rec.ratingCount : ℚ) + newR) / ((rec.ratingCount + 1 : Int) : ℚ)
        ratingCount := rec.ratingCount + 1
        lastUpdated := now
        source := src }) store) := by
    simp only [updateRating, hsan, if_neg hne, hval, hrec, updateOneUpsert, Option.getD_some]
    rw [show findOneStats store (BVal.str sid) src =
      List.find? (statsFilter (BVal.str sid) src) store from rfl] at hrec
    simp only [hrec]
  refine ⟨_, key, ?_⟩
  have hfound : findOneStats (updateOne (statsFilter (BVal.str sid) src)
      (fun d => { d with
        rating := (rec.rating * (rec.ratingCount : ℚ) + newR) / ((rec.ratingCount + 1 : Int) : ℚ)
        ratingCount := rec.ratingCount + 1
        lastUpdated := now
        source := src }) store) (BVal.str sid) src = some { rec with
        rating := (rec.rating * (rec.ratingCount : ℚ) + newR) / ((rec.ratingCount + 1 : Int) : ℚ)
        ratingCount := rec.ratingCount + 1
        lastUpdated := now
        source := src } := by
    show List.find? _ _ = _
    rw [find?_updateOne_self _ _ _ rec hrec]
    intro d hd
    simp [statsFilter] at hd ⊢
    exact hd.1
  rw [hfound]
  simp

/-- C4: for a stats record with mean rating r over c samples, UpdateRating
stores the running mean (r times c plus the new sample, over c plus one)
and increments the count; in particular three ratings 5, 3, 4 applied to
an initially absent record end with count 3 and mean exactly 4. -/
theorem C4_update_rating_running_mean :
    (∀ (now : Nat) (sid src : String) (newR : ℚ) (store : List ServerStats)
        (rec : ServerStats),
      sanitizeServerID sid = .ok sid →
      validateSource src = .ok src → src ≠ "" →
      findOneStats store (BVal.str sid) src = some rec →
      ∃ store2, updateRating now sid src newR store = .ok store2 ∧
        (findOneStats store2 (BVal.str sid) src).map (fun d => (d.rating, d.ratingCount)) =
          some ((rec.rating * (rec.ratingCount : ℚ) + newR) / ((rec.ratingCount + 1 : Int) : ℚ),
                rec.ratingCount + 1)) ∧
    ((((updateRating 1 "foo" "REGISTRY" 5 []).bind (updateRating 2 "foo" "REGISTRY" 3)).bind
        (updateRating 3 "foo" "REGISTRY" 4)).map
      (fun s => (findOneStats s (BVal.str "foo") "REGISTRY").map
        (fun d => (d.rating, d.ratingCount)))) = .ok (some (4, 3)) := by
  constructor
  · intro now sid src newR store rec hsan hval hne hrec
    exact updateRating_existing now sid src newR store rec hsan hval hne hrec
  · have hsan : sanitizeServerID "foo" = Except.ok "foo" := by decide
    have hval : validateSource "REGISTRY" = Except.ok "REGISTRY" := by decide
    have hne : ("REGISTRY" : String) ≠ "" := by decide
    have h1 : ∃ r1, updateRating 1 "foo" "REGISTRY" 5 [] = .ok [r1] ∧
        findOneStats [r1] (BVal.str "foo") "REGISTRY" = some r1 ∧
        r1.rating = 5 ∧ r1.ratingCount = 1 := by
      simp only [updateRating, hsan, hval, if_neg hne]
      refine ⟨_, rfl,
        by simp [findOneStats, List.find?, statsFilter, updateOneUpsert, emptyStats], ?_, ?_⟩
      · show (emptyStats.rating * ((emptyStats.ratingCount : Int) : ℚ) + 5) /
          (((emptyStats.ratingCount + 1 : Int)) : ℚ) = 5
        norm_num [emptyStats]
      · show emptyStats.ratingCount + 1 = 1
        norm_num [emptyStats]
    obtain ⟨r1, h1eq, h1find, h1r, h1c⟩ := h1
    obtain ⟨s2, h2eq, h2find⟩ := updateRating_existing 2 "foo" "REGISTRY" 3 [r1] r1 hsan hval hne h1find
    rw [Option.map_eq_some'] at h2find
    obtain ⟨r2, h2f, h2proj⟩ := h2find
    have h2r : r2.rating = 4 := by
      have := congrArg Prod.fst h2proj
      simp at this
      rw [this, h1r, h1c]
      norm_num
    have h2c : r2.ratingCount = 2 := by
      have := congrArg Prod.snd h2proj
      simp at this
      rw [this, h1c]
      decide
    obtain ⟨s3, h3eq, h3find⟩ := updateRating_existing 3 "foo" "REGISTRY" 4 s2 r2 hsan hval hne h2f
    rw [Option.map_eq_some'] at h3find
    obtain ⟨r3, h3f, h3proj⟩ := h3find
    have h3r : r3.rating = 4 := by
      have := congrArg Prod.fst h3proj
      simp at this
      rw [this, h2r, h2c]
      norm_num
    have h3c : r3.ratingCount = 3 := by
      have := congrArg Prod.snd h3proj
      simp at this
      rw [this, h2c]
      decide
    rw [h1eq]
    rw [show Except.bind (Except.ok [r1]) (updateRating 2 "foo" "REGISTRY" 3) =
      updateRating 2 "foo" "REGISTRY" 3 [r1] from rfl]
    rw [h2eq]
    rw [show Except.bind (Except.ok s2) (updateRating 3 "foo" "REGISTRY" 4) =
      updateRating 3 "foo" "REGISTRY" 4 s2 from rfl]
    rw [h3eq]
    simp [Except.map, h3f, h3r, h3c]

/-- Witness for C4: the general running-mean clause applied to the
community record with 10 ratings at mean 4. -/
theorem C4_update_rating_running_mean_witness :
    sanitizeServerID "A" = .ok "A" ∧
    validateSource "COMMUNITY" = .ok "COMMUNITY" ∧
    ("COMMUNITY" : String) ≠ "" ∧
    findOneStats [communityRec] (BVal.str "A") "COMMUNITY" = some communityRec ∧
    (∃ store2, updateRating 7 "A" "COMMUNITY" 2 [communityRec] = .ok store2 ∧
      (findOneStats store2 (BVal.str "A") "COMMUNITY").map
          (fun d => (d.rating, d.ratingCount)) =
        some ((communityRec.rating * (communityRec.ratingCount : ℚ) + 2) /
                ((communityRec.ratingCount + 1 : Int) : ℚ),
              communityRec.ratingCount + 1)) :=
  ⟨by decide, by decide, by decide, by decide,
    C4_update_rating_running_mean.1 7 "A" "COMMUNITY" 2 [communityRec] communityRec
      (by decide) (by decide) (by decide) (by decide)⟩

/-- C5 (code-bug evidence): after a feedback list page for server foo and
source REGISTRY is cached under the handler key, running the rating-path
cache invalidation for exactly that server and source leaves the entry in
place (the wildcard string passed to the exact-key Delete matches
nothing), so the next list request is served the stale cached value. -/
theorem C5_feedback_cache_not_invalidated :
    cacheGet (invalidateFeedbackCache "foo" "REGISTRY"
        (cacheSet ([] : List (String × Nat))
          (feedbackListCacheKey "foo" "REGISTRY" 20 0 "newest") 1))
      (feedbackListCacheKey "foo" "REGISTRY" 20 0 "newest") = some 1 := by
  decide

/-- C7 (code-bug evidence): RecordActivity inserts the event with the
assigned id and timestamp, but the counter update is wrapped by
UpdateAnalyticsMetrics in one big set operation, so the counter fields are
overwritten with the literal one-entry increment document instead of being
incremented: total installs 5 does not become 6. -/
theorem C7_record_activity_overwrites_counters :
    (recordActivity 7 "id1" installEvent ⟨[], metricsBefore⟩).activity =
        [{ installEvent with id := "id1", timestamp := 7 }] ∧
    (recordActivity 7 "id1" installEvent ⟨[], metricsBefore⟩).metrics.totalInstalls =
        MVal.incDoc 1 ∧
    (recordActivity 7 "id1" installEvent ⟨[], metricsBefore⟩).metrics.installsToday =
        MVal.incDoc 1 ∧
    MVal.incDoc 1 ≠ MVal.num 6 := by
  decide

/-- C8 (code-bug evidence): SyncAnalyticsData filters on server id equal
to the integer installation delta of the request, so the existing record
of server foo is left untouched and the upsert creates a fresh document
whose server id is the number 0. -/
theorem C8_sync_analytics_keys_on_delta :
    syncAnalyticsData 5 [fooUpdate] [fooStats] =
      [fooStats, { emptyStats with
        serverId := BVal.int 0
        activeInstalls := 7
        dailyActiveUsers := 8
        monthlyActiveUsers := 9
        lastUpdated := 5 }] := by
  decide

/-! Membership lemmas for the trending sort. -/

theorem mem_insertScoreDesc (x d : ServerStats) :
    ∀ l : List ServerStats, x ∈ insertScoreDesc l d → x ∈ l ∨ x = d := by
  intro l
  induction l with
  | nil =>
    intro h
    simp [insertScoreDesc] at h
    exact Or.inr h
  | cons e es ih =>
    intro h
    simp only [insertScoreDesc] at h
    by_cases hgt : scoreGT d e
    · simp [hgt] at h
      rcases h with h | h | h
      · exact Or.inr h
      · exact Or.inl (by simp [h])
      · exact Or.inl (by simp [h])
    · simp [hgt] at h
      rcases h with h | h
      · exact Or.inl (by simp [h])
      · rcases ih h with h2 | h2
        · exact Or.inl (by simp [h2])
        · exact Or.inr h2

theorem mem_sortScoreDesc_aux (x : ServerStats) :
    ∀ (l acc : List ServerStats), x ∈ List.foldl insertScoreDesc acc l → x ∈ acc ∨ x ∈ l := by
  intro l
  induction l with
  | nil =>
    intro acc h
    exact Or.inl h
  | cons d ds ih =>
    intro acc h
    rcases ih (insertScoreDesc acc d) h with h2 | h2
    · rcases mem_insertScoreDesc x d acc h2 with h3 | h3
      · exact Or.inl h3
      · exact Or.inr (by simp [h3])
    · exact Or.inr (by simp [h2])

theorem mem_sortScoreDesc (x : ServerStats) (l : List ServerStats)
    (h : x ∈ sortScoreDesc l) : x ∈ l := by
  rcases mem_sortScoreDesc_aux x l [] h with h2 | h2
  · simp at h2
  · exact h2

/-- C6 counterexample: on the three-record store of the trending scenario
(no activity events are consulted at all by this endpoint), the response
of GET /vp/stats/trending with limit 2 consists of entries that carry no
trend-period and no momentum marking, so it differs from the output the
claim describes, in which both entries are marked all-time with zero
momentum. -/
theorem C6_trending_counterexample :
    (vpStatsTrending 2 "" trendingStore).toOption =
      some [⟨BVal.str "s45", ⟨9, 2, by decide, by decide⟩, none, none⟩,
            ⟨BVal.str "s42", ⟨21, 5, by decide, by decide⟩, none, none⟩] ∧
    specTrendingPad 2 trendingStore =
      [⟨BVal.str "s45", ⟨9, 2, by decide, by decide⟩, some "all-time", some 0⟩,
       ⟨BVal.str "s42", ⟨21, 5, by decide, by decide⟩, some "all-time", some 0⟩] ∧
    (vpStatsTrending 2 "" trendingStore).toOption ≠ some (specTrendingPad 2 trendingStore) := by
  refine ⟨by decide, by decide, by decide⟩

/-- C6 amended: GET /vp/stats/trending returns the stats-store trend-score
pipeline output wrapped into extended-server entries; every returned entry
comes from a stored stats record and carries no trend-period and no
momentum-change field (there is no all-time padding on this endpoint; that
behaviour lives in the analytics-store trending used by /vp/analytics/hot
and the dashboard). -/
theorem C6_trending_entries_unmarked (limit : Int) (source : String)
    (store : List ServerStats) (out : List TrendingEntry)
    (h : vpStatsTrending limit source store = .ok out) :
    ∀ e ∈ out, e.trendPeriod = none ∧ e.momentumChange = none ∧
      e.serverId ∈ store.map ServerStats.serverId := by
  intro e he
  simp only [vpStatsTrending, getTrending, bind, Except.bind, Except.map] at h
  cases hv : validateLimit limit with
  | error msg =>
    rw [hv] at h
    simp at h
  | ok vlimit =>
    rw [hv] at h
    cases hf : createSafeFilter source with
    | error msg =>
      rw [hf] at h
      simp at h
    | ok filter =>
      rw [hf] at h
      simp only [Except.ok.injEq] at h
      subst h
      rw [List.mem_map] at he
      obtain ⟨d, hd, hde⟩ := he
      subst hde
      refine ⟨rfl, rfl, ?_⟩
      have hd2 : d ∈ sortScoreDesc (store.filter filter) := List.mem_of_mem_take hd
      have hd3 : d ∈ store.filter filter := mem_sortScoreDesc d _ hd2
      have hd4 : d ∈ store := List.mem_of_mem_filter hd3
      exact List.mem_map_of_mem ServerStats.serverId hd4

/-- Witness for the amended C6 at the trending fixture store. -/
theorem C6_trending_entries_unmarked_witness :
    vpStatsTrending 2 "" trendingStore =
      .ok [⟨BVal.str "s45", ⟨9, 2, by decide, by decide⟩, none, none⟩,
           ⟨BVal.str "s42", ⟨21, 5, by decide, by decide⟩, none, none⟩] ∧
    (⟨BVal.str "s45", ⟨9, 2, by decide, by decide⟩, none, none⟩ : TrendingEntry) ∈
      [(⟨BVal.str "s45", ⟨9, 2, by decide, by decide⟩, none, none⟩ : TrendingEntry),
       ⟨BVal.str "s42", ⟨21, 5, by decide, by decide⟩, none, none⟩] ∧
    ((⟨BVal.str "s45", ⟨9, 2, by decide, by decide⟩, none, none⟩ : TrendingEntry).trendPeriod = none ∧
     (⟨BVal.str "s45", ⟨9, 2, by decide, by decide⟩, none, none⟩ : TrendingEntry).momentumChange = none ∧
     (⟨BVal.str "s45", ⟨9, 2, by decide, by decide⟩, none, none⟩ : TrendingEntry).serverId ∈
       trendingStore.map ServerStats.serverId) :=
  ⟨by decide, by decide,
    C6_trending_entries_unmarked 2 "" trendingStore
      [⟨BVal.str "s45", ⟨9, 2, by decide, by decide⟩, none, none⟩,
       ⟨BVal.str "s42", ⟨21, 5, by decide, by decide⟩, none, none⟩]
      (by decide) _ (by decide)⟩

/-- C9 counterexample: updating feedback f1 (owned by alice) with user bob
returns 403 Forbidden with the store unchanged, not the 404 NotFound the
claim requires, so an attacker can distinguish existing foreign feedback
from absent feedback on the update path. -/
theorem C9_update_mismatch_forbidden :
    updateFeedbackHandler 11 "f1" ⟨3, "", "bob"⟩ [aliceFeedback] =
      (HandlerResult.forbidden, [aliceFeedback]) ∧
    HandlerResult.forbidden ≠ HandlerResult.notFound := by
  refine ⟨by decide, by decide⟩

/-- C9 amended: on a user mismatch the delete path does return NotFound
with the store unchanged, indistinguishable from the record being absent,
and the store-level update filter also misses (returning NotFound); the
update handler, however, first fetches the feedback by id alone and
returns 403 Forbidden on the mismatch, leaking existence. -/
theorem C9_owner_mismatch (now : Nat) (fid uid : String)
    (req : FeedbackUpdateRequest) (store : List ServerFeedback) (f : ServerFeedback)
    (hfid : fid ≠ "") (huid : uid ≠ "")
    (hr1 : 1 ≤ req.rating) (hr5 : req.rating ≤ 5)
    (hcom : req.comment.utf8ByteSize ≤ 1000)
    (hrequid : req.userId = uid)
    (hfind : store.find? (fun d => decide (d.id = fid)) = some f)
    (hmis : ∀ d ∈ store, d.id = fid → d.userId ≠ uid) :
    updateFeedbackHandler now fid req store = (.forbidden, store) ∧
    deleteFeedbackHandler fid uid store = (.notFound, store) ∧
    updateFeedback now { f with userId := uid } store = .error errFeedbackNotFound ∧
    (∀ store2 : List ServerFeedback, (∀ d ∈ store2, d.id ≠ fid) →
      deleteFeedbackHandler fid uid store2 = (.notFound, store2)) := by
  have hfmem : f ∈ store := List.mem_of_find?_eq_some hfind
  have hfi : f.id = fid := of_decide_eq_true
    (@List.find?_some ServerFeedback (fun d => decide (d.id = fid)) f store hfind)
  have hfu : f.userId ≠ uid := hmis f hfmem hfi
  refine ⟨?_, ?_, ?_, ?_⟩
  · simp only [updateFeedbackHandler]
    rw [if_neg (by push_neg; exact ⟨hr1, hr5⟩)]
    rw [if_neg (by omega)]
    rw [if_neg (by rw [hrequid]; exact huid)]
    rw [hfind]
    simp only []
    rw [if_pos (by rw [hrequid]; exact hfu)]
  · simp only [deleteFeedbackHandler]
    rw [if_neg huid]
    have hnone : deleteFeedback fid uid store = .error errFeedbackNotFound := by
      simp only [deleteFeedback]
      rw [if_neg (by simp [hfid, huid])]
      rw [if_neg]
      intro hany
      rw [List.any_eq_true] at hany
      obtain ⟨d, hdmem, hdp⟩ := hany
      have := of_decide_eq_true hdp
      exact hmis d hdmem this.1 this.2
    rw [hnone]
    simp [errFeedbackNotFound]
  · simp only [updateFeedback]
    rw [if_neg (by show ¬(f.id = ""); rw [hfi]; exact hfid)]
    have : store.find? (fun d => decide (d.id = ({ f with userId := uid } : ServerFeedback).id ∧
        d.userId = ({ f with userId := uid } : ServerFeedback).userId)) = none := by
      rw [List.find?_eq_none]
      intro d hdmem hdp
      have := of_decide_eq_true hdp
      exact hmis d hdmem (by rw [this.1]; exact hfi) this.2
    rw [this]
  · intro store2 h2
    simp only [deleteFeedbackHandler]
    rw [if_neg huid]
    have hnone : deleteFeedback fid uid store2 = .error errFeedbackNotFound := by
      simp only [deleteFeedback]
      rw [if_neg (by simp [hfid, huid])]
      rw [if_neg]
      intro hany
      rw [List.any_eq_true] at hany
      obtain ⟨d, hdmem, hdp⟩ := hany
      have := of_decide_eq_true hdp
      exact h2 d hdmem this.1
    rw [hnone]
    simp [errFeedbackNotFound]

/-- Witness for the amended C9 with user bob against feedback f1 owned by
alice. -/
theorem C9_owner_mismatch_witness :
    ("f1" : String) ≠ "" ∧ ("bob" : String) ≠ "" ∧
    (1 : ℚ) ≤ (⟨3, "", "bob"⟩ : FeedbackUpdateRequest).rating ∧
    (⟨3, "", "bob"⟩ : FeedbackUpdateRequest).rating ≤ 5 ∧
    (⟨3, "", "bob"⟩ : FeedbackUpdateRequest).comment.utf8ByteSize ≤ 1000 ∧
    (⟨3, "", "bob"⟩ : FeedbackUpdateRequest).userId = "bob" ∧
    [aliceFeedback].find? (fun d => decide (d.id = "f1")) = some aliceFeedback ∧
    (∀ d ∈ [aliceFeedback], d.id = "f1" → d.userId ≠ "bob") ∧
    (updateFeedbackHandler 11 "f1" ⟨3, "", "bob"⟩ [aliceFeedback] =
        (.forbidden, [aliceFeedback]) ∧
      deleteFeedbackHandler "f1" "bob" [aliceFeedback] = (.notFound, [aliceFeedback]) ∧
      updateFeedback 11 { aliceFeedback with userId := "bob" } [aliceFeedback] =
        .error errFeedbackNotFound ∧
      (∀ store2 : List ServerFeedback, (∀ d ∈ store2, d.id ≠ "f1") →
        deleteFeedbackHandler "f1" "bob" store2 = (.notFound, store2))) :=
  ⟨by decide, by decide, by decide, by decide, by decide, by decide, by decide, by decide,
    C9_owner_mismatch 11 "f1" "bob" ⟨3, "", "bob"⟩ [aliceFeedback] aliceFeedback
      (by decide) (by decide) (by decide) (by decide) (by decide) (by decide)
      (by decide) (by decide)⟩

/-- The document written by `CreateFeedback` always has `is_public`
true. -/
theorem createFeedbackDoc_isPublic (now : Nat) (freshId sid vsrc : String)
    (fb : ServerFeedback) :
    (createFeedbackDoc now freshId sid vsrc fb).isPublic = true := by
  by_cases h1 : fb.id = "" <;> by_cases h2 : fb.isPublic <;>
    simp [createFeedbackDoc, h1, h2]

/-- C10: every feedback record that CreateFeedback successfully writes has
`is_public` true, whatever the caller supplied: a false `is_public` is
overwritten with true before the insert, so non-public feedback cannot be
created through this interface, and the store grows by exactly that
record. -/
theorem C10_create_feedback_public (now : Nat) (freshId : String)
    (fb : ServerFeedback) (store : List ServerFeedback)
    (out : ServerFeedback × List ServerFeedback)
    (h : createFeedback now freshId fb store = .ok out) :
    out.1.isPublic = true ∧ out.2 = store ++ [out.1] := by
  unfold createFeedback at h
  split at h
  · exact absurd h (by simp)
  · cases hsan : sanitizeServerID fb.serverId with
    | error e =>
      rw [hsan] at h
      exact absurd h (by simp)
    | ok sid =>
      rw [hsan] at h
      simp only [] at h
      cases hval : validateSource (if fb.source = "" then SourceRegistry else fb.source) with
      | error e =>
        rw [hval] at h
        exact absurd h (by simp)
      | ok vsrc =>
        rw [hval] at h
        simp only [] at h
        split at h
        · exact absurd h (by simp)
        · rw [Except.ok.injEq] at h
          subst h
          exact ⟨createFeedbackDoc_isPublic _ _ _ _ _, rfl⟩

/-- Witness for C10: a submission with `is_public` false is stored with
`is_public` true. -/
theorem C10_create_feedback_public_witness :
    privateFeedbackReq.isPublic = false ∧
    createFeedback 9 "fresh" privateFeedbackReq [] =
      .ok (⟨"fresh", "srv", "REGISTRY", "alice", 5, "nice", 9, 9, true⟩,
           [⟨"fresh", "srv", "REGISTRY", "alice", 5, "nice", 9, 9, true⟩]) ∧
    ((⟨"fresh", "srv", "REGISTRY", "alice", 5, "nice", 9, 9, true⟩ : ServerFeedback).isPublic = true ∧
      ([(⟨"fresh", "srv", "REGISTRY", "alice", 5, "nice", 9, 9, true⟩ : ServerFeedback)]) =
        [] ++ [(⟨"fresh", "srv", "REGISTRY", "alice", 5, "nice", 9, 9, true⟩ : ServerFeedback)]) :=
  ⟨by decide, by decide,
    C10_create_feedback_public 9 "fresh" privateFeedbackReq []
      (⟨"fresh", "srv", "REGISTRY", "alice", 5, "nice", 9, 9, true⟩,
       [⟨"fresh", "srv", "REGISTRY", "alice", 5, "nice", 9, 9, true⟩])
      (by decide)⟩
